import Mathlib

/-!
Shallow embedding of the kargo promotion controller sources and proofs of the
specified properties.

Embedded sources:
* `internal/controller/promotions/watches.go` — the
  `EnqueueHighestPriorityPromotionHandler` and `UpdatedArgoCDAppHandler`
  watch-event handlers;
* `internal/api/types/v1alpha1/types.go` — the proto-to-domain converters;
* the warehouses reconciler's `selectCharts` (only its test is in the sources;
  the function is modelled from the spec).

Go maps are embedded as association lists with first-match lookup (Go map keys
are unique, and reads of a missing key yield the zero value); Go pointers as
`Option`; the object store (`kargoapi.GetPromotion`, an external collaborator)
as an oracle function passed to each handler; the work queue as the list of
requests a handler adds to it.
-/

namespace KargoSpec

/-- Association-list lookup, first matching key (Go map semantics: keys are
unique, so first match is the match). -/
def goLookup {κ α : Type} [DecidableEq κ] : List (κ × α) → κ → Option α
  | [], _ => none
  | (k', v) :: t, k => if k' = k then some v else goLookup t k

/-- Association-list write (Go map assignment): replace the entry for the key
if present, append it otherwise. -/
def goInsert {κ α : Type} [DecidableEq κ] : List (κ × α) → κ → α → List (κ × α)
  | [], k, v => [(k, v)]
  | (k', v') :: t, k, v => if k' = k then (k, v) :: t else (k', v') :: goInsert t k v

theorem goInsert_of_goLookup_eq {κ α : Type} [DecidableEq κ]
    {m : List (κ × α)} {k : κ} {v : α} (h : goLookup m k = some v) :
    goInsert m k v = m := by
  induction m with
  | nil => simp [goLookup] at h
  | cons hd t ih =>
    obtain ⟨k', v'⟩ := hd
    by_cases hk : k' = k
    · subst hk
      simp [goLookup] at h
      simp [goInsert, h]
    · simp [goLookup, hk] at h
      simp [goInsert, hk, ih h]

theorem goLookup_goInsert_self {κ α : Type} [DecidableEq κ]
    (m : List (κ × α)) (k : κ) (v : α) :
    goLookup (goInsert m k v) k = some v := by
  induction m with
  | nil => simp [goInsert, goLookup]
  | cons hd t ih =>
    obtain ⟨k', v'⟩ := hd
    by_cases hk : k' = k
    · subst hk
      simp [goInsert, goLookup]
    · simp [goInsert, goLookup, hk, ih]

namespace Promotions

/-- Modelled from the spec: `PromotionPhase` and its `IsTerminal` predicate live
in `api/v1alpha1`, which is not among the sources (only its callers are).
Section 4.3 of the spec fixes the states: `Pending → Running → {Succeeded,
Failed, Errored}`, a promotion being terminal iff its phase is one of the
terminal set. -/
inductive PromotionPhase where
  | Pending
  | Running
  | Succeeded
  | Failed
  | Errored
deriving DecidableEq, Repr

/-- Modelled from the spec: `isTerminal(phase)` is authoritative; the terminal
set is `{Succeeded, Failed, Errored}`. -/
def PromotionPhase.IsTerminal : PromotionPhase → Bool
  | .Succeeded => true
  | .Failed => true
  | .Errored => true
  | _ => false

/-- `types.NamespacedName`: a (namespace, name) pair.  Used both as the stage
key (namespace, stage-name) and as the promotion reference held in the pending
queues and reconcile requests. -/
structure NamespacedName where
  Namespace : String
  Name : String
deriving DecidableEq, Repr

abbrev StageKey := NamespacedName

/-- `kargoapi.Promotion`, restricted to the fields the watch handlers read:
object namespace and name, `Spec.Stage`, and `Status.Phase`. -/
structure PromotionSpec where
  Stage : String
deriving DecidableEq, Repr

structure PromotionStatus where
  Phase : PromotionPhase
deriving DecidableEq, Repr

structure Promotion where
  Namespace : String
  Name : String
  Spec : PromotionSpec
  Status : PromotionStatus
deriving DecidableEq, Repr

/-- The `promoQueues` registry state referenced by the handlers:
`activePromoByStage` maps a stage key to the name of its active promotion
(Go map: an absent key reads as the zero value `""`), and
`pendingPromoQueuesByStage` maps a stage key to its pending queue.  The
priority queue is embedded as the ordered sequence of queued promotion
references, head first (highest priority); the handlers only `Peek` and `Pop`
its head. -/
structure PromoQueues where
  activePromoByStage : List (StageKey × String)
  pendingPromoQueuesByStage : List (StageKey × List NamespacedName)
deriving DecidableEq, Repr

/-- Result of `kargoapi.GetPromotion` (object store read, external collaborator
per section 6 of the spec): an error, not-found (a nil object with a nil
error), or the promotion object. -/
inductive FetchResult where
  | err
  | notFound
  | found (promo : Promotion)
deriving DecidableEq, Repr

/-- An entry is stale for the store when the referenced promotion no longer
exists or is already terminal — exactly the condition under which
`enqueueNext` pops it and moves on. -/
def staleEntry (store : NamespacedName → FetchResult) (p : NamespacedName) : Bool :=
  match store p with
  | .err => false
  | .notFound => true
  | .found promo => promo.Status.Phase.IsTerminal

namespace EnqueueHighestPriorityPromotionHandler

/-- The candidate loop of `enqueueNext` (watches.go lines 114-147): peek the
head of the pending queue; on a store error abort the pass with the queue
unchanged; pop an entry that no longer exists or is terminal and continue; on a
valid candidate return the fetched promotion's (namespace, name) as the
reconcile request, leaving the candidate in the queue (it was only peeked).
Returns the resulting queue and the request enqueued, if any. -/
def selectLoop (store : NamespacedName → FetchResult) :
    List NamespacedName → List NamespacedName × Option NamespacedName
  | [] => ([], none)
  | first :: rest =>
    match store first with
    | .err => (first :: rest, none)
    | .notFound => selectLoop store rest
    | .found promo =>
      if promo.Status.Phase.IsTerminal then
        selectLoop store rest
      else
        (first :: rest, some ⟨promo.Namespace, promo.Name⟩)

/-- The body of `enqueueNext` after the active-promotion guard: look up the
stage's pending queue (`pq, ok := ...; if !ok return`) and run the candidate
loop, writing the resulting queue back.  (In Go the queue is mutated through
the map's pointer; here the updated queue is written back to the map.) -/
def examinePending (store : NamespacedName → FetchResult)
    (pqs : PromoQueues) (stageKey : StageKey) :
    PromoQueues × Option NamespacedName :=
  match goLookup pqs.pendingPromoQueuesByStage stageKey with
  | none => (pqs, none)
  | some pq =>
    let r := selectLoop store pq
    ({ pqs with
        pendingPromoQueuesByStage :=
          goInsert pqs.pendingPromoQueuesByStage stageKey r.1 },
      r.2)

/-- `EnqueueHighestPriorityPromotionHandler.enqueueNext` (watches.go lines
95-148): under the registry lock, return immediately when an active promotion
is recorded for the stage key (`activePromoByStage[stageKey] != ""`), else
examine the pending queue.  Returns the updated registry state and the
reconcile request added to the work queue, if any. -/
def enqueueNext (store : NamespacedName → FetchResult)
    (pqs : PromoQueues) (stageKey : StageKey) :
    PromoQueues × Option NamespacedName :=
  if (goLookup pqs.activePromoByStage stageKey).getD "" ≠ "" then
    (pqs, none)
  else
    examinePending store pqs stageKey

end EnqueueHighestPriorityPromotionHandler

/-- Modelled from the spec: `promoQueues.conclude` is not among the sources
(only its call sites in watches.go are).  Section 4.2: "Clears
`activeByStage[stageKey]` only if it currently equals `promotionRef` (guards
against a stale/duplicate conclude racing a newer admission). Idempotent."
The cleared slot is written as the empty-string sentinel (interchangeable with
an absent entry per section 3). -/
def conclude (pqs : PromoQueues) (stageKey : StageKey) (promoName : String) :
    PromoQueues :=
  if (goLookup pqs.activePromoByStage stageKey).getD "" = promoName then
    { pqs with
        activePromoByStage := goInsert pqs.activePromoByStage stageKey "" }
  else pqs

/-- Modelled from the spec: the priority queue's `push` (section 4.1) — insert
preserving order, a no-op when the reference is already present.  The position
assigned by the caller-supplied comparison is abstracted as an append; no
theorem below depends on the inserted position. -/
def pushRef (q : List NamespacedName) (ref : NamespacedName) :
    List NamespacedName :=
  if ref ∈ q then q else q ++ [ref]

/-- Modelled from the spec: the registry's `admit` (section 4.2), not among the
sources — if no promotion is active for the stage key, atomically mark the new
reference active and report became-active (`true`); otherwise push it onto the
stage's pending queue and report admitted (`false`). -/
def admitPromotion (pqs : PromoQueues) (stageKey : StageKey)
    (ref : NamespacedName) : PromoQueues × Bool :=
  if (goLookup pqs.activePromoByStage stageKey).getD "" = "" then
    ({ pqs with
        activePromoByStage := goInsert pqs.activePromoByStage stageKey ref.Name },
      true)
  else
    let q := (goLookup pqs.pendingPromoQueuesByStage stageKey).getD []
    ({ pqs with
        pendingPromoQueuesByStage :=
          goInsert pqs.pendingPromoQueuesByStage stageKey (pushRef q ref) },
      false)

namespace EnqueueHighestPriorityPromotionHandler

/-- A promotion update event (`event.UpdateEvent`), restricted to the objects
the handler reads.  `ObjectNew = none` embeds both a nil new object and a
failed cast to `*kargoapi.Promotion` (the handler logs and returns in either
case). -/
structure UpdateEvent where
  ObjectOld : Option Promotion
  ObjectNew : Option Promotion
deriving DecidableEq, Repr

/-- `EnqueueHighestPriorityPromotionHandler.Update` (watches.go lines 67-91):
if the new object's phase is terminal, derive the stage key
(namespace, `Spec.Stage`), call `conclude` with the promotion's name, then run
`enqueueNext`.  The old object's phase is never examined.  Returns the
resulting registry state, whether the handler acted (called `conclude` and ran
the selection), and the reconcile request it enqueued, if any. -/
def Update (store : NamespacedName → FetchResult)
    (pqs : PromoQueues) (evt : UpdateEvent) :
    PromoQueues × Bool × Option NamespacedName :=
  match evt.ObjectNew with
  | none => (pqs, false, none)
  | some promo =>
    if promo.Status.Phase.IsTerminal then
      let stageKey : StageKey := ⟨promo.Namespace, promo.Spec.Stage⟩
      let pqs1 := conclude pqs stageKey promo.Name
      let r := enqueueNext store pqs1 stageKey
      (r.1, true, r.2)
    else
      (pqs, false, none)

/-- `EnqueueHighestPriorityPromotionHandler.Create` (watches.go lines 31-37):
an empty body — the registry is untouched and nothing is enqueued. -/
def Create (pqs : PromoQueues) : PromoQueues × List NamespacedName :=
  (pqs, [])

/-- `EnqueueHighestPriorityPromotionHandler.Generic` (watches.go lines 57-63):
an empty body — the registry is untouched and nothing is enqueued. -/
def Generic (pqs : PromoQueues) : PromoQueues × List NamespacedName :=
  (pqs, [])

end EnqueueHighestPriorityPromotionHandler

namespace UpdatedArgoCDAppHandler

/-- An ArgoCD Application update event, restricted to what the handler reads
of the old and new objects: their namespace and name. -/
structure AppUpdateEvent where
  ObjectOld : Option NamespacedName
  ObjectNew : Option NamespacedName
deriving DecidableEq, Repr

/-- `UpdatedArgoCDAppHandler.Update` (watches.go lines 185-237): when both
objects are present, list the running promotions indexed under the key
`"<namespace>:<name>"` of the new object
(`RunningPromotionsByArgoCDApplicationsIndexField`, shard selector folded into
the oracle) and add one reconcile request per promotion returned; on a list
error, log and return.  The handler holds no reference to the promotion queue
registry; the registry state is threaded through unchanged to express the
frame property. -/
def Update (listRunning : String → Except String (List NamespacedName))
    (pqs : PromoQueues) (evt : AppUpdateEvent) :
    PromoQueues × List NamespacedName :=
  match evt.ObjectNew, evt.ObjectOld with
  | some newObj, some _ =>
    match listRunning (newObj.Namespace ++ ":" ++ newObj.Name) with
    | .error _ => (pqs, [])
    | .ok promos =>
      (pqs, promos.map (fun p => (⟨p.Namespace, p.Name⟩ : NamespacedName)))
  | _, _ => (pqs, [])

/-- `UpdatedArgoCDAppHandler.Create` (watches.go lines 158-164): empty body. -/
def Create (pqs : PromoQueues) : PromoQueues × List NamespacedName :=
  (pqs, [])

/-- `UpdatedArgoCDAppHandler.Delete` (watches.go lines 167-173): empty body. -/
def Delete (pqs : PromoQueues) : PromoQueues × List NamespacedName :=
  (pqs, [])

/-- `UpdatedArgoCDAppHandler.Generic` (watches.go lines 176-182): empty body. -/
def Generic (pqs : PromoQueues) : PromoQueues × List NamespacedName :=
  (pqs, [])

end UpdatedArgoCDAppHandler

end Promotions

namespace Conv

/-!
Embedding of `internal/api/types/v1alpha1/types.go` (the `From*Proto`
converters).  Proto messages (`pkg/api/v1alpha1`) have pointer-valued scalar
fields (`proto.String` / `proto.Bool`), embedded as `Option`; repeated message
fields are slices of pointers, embedded as lists of `Option`; a message
pointer argument is an `Option` of the message.  Domain types
(`api/v1alpha1`, `kubev1alpha1`) hold plain values.
-/

/-- Outcome of running a Go conversion that may dereference a nil pointer:
either the returned value, or the nil-pointer-dereference runtime panic. -/
inductive GoRun (α : Type) where
  | ok (val : α)
  | nilDeref
deriving DecidableEq, Repr

/-- Go dereference `*p` of a possibly-nil pointer: the pointed-to value when
non-nil, the nil-pointer-dereference panic otherwise. -/
def goDeref {α : Type} : Option α → GoRun α
  | none => GoRun.nilDeref
  | some v => GoRun.ok v

/-- The element loop `for idx, e := range s.GetXs() { out[idx] = *FromXProto(e) }`
over a repeated message field: convert each element and dereference the
result, stopping with the panic at the first nil dereference. -/
def mapDeref {π β : Type} (f : Option π → Option β) :
    List (Option π) → GoRun (List β)
  | [] => GoRun.ok []
  | a :: t =>
    match goDeref (f a) with
    | .nilDeref => GoRun.nilDeref
    | .ok v =>
      match mapDeref f t with
      | .nilDeref => GoRun.nilDeref
      | .ok vs => GoRun.ok (v :: vs)

/-- The same element loop for an element converter that can itself panic (its
own body dereferences repeated-field elements): a panic inside the element
conversion propagates, and a nil returned pointer panics at the dereference. -/
def mapDerefRun {π β : Type} (f : Option π → GoRun (Option β)) :
    List (Option π) → GoRun (List β)
  | [] => GoRun.ok []
  | a :: t =>
    match f a with
    | .nilDeref => GoRun.nilDeref
    | .ok b =>
      match goDeref b with
      | .nilDeref => GoRun.nilDeref
      | .ok v =>
        match mapDerefRun f t with
        | .nilDeref => GoRun.nilDeref
        | .ok vs => GoRun.ok (v :: vs)

/-- A conversion outcome is a nil result when the call returned normally with
a nil pointer — as opposed to returning non-nil or panicking. -/
def GoRun.nilResult {β : Type} : GoRun (Option β) → Bool
  | .ok none => true
  | .ok (some _) => false
  | .nilDeref => false

namespace Proto

structure GitSubscription where
  RepoURL : Option String
  Branch : Option String
deriving DecidableEq, Repr

structure ImageSubscription where
  RepoURL : Option String
  UpdateStrategy : Option String
  SemverConstraint : Option String
  AllowTags : Option String
  IgnoreTags : List String
  Platform : Option String
deriving DecidableEq, Repr

structure ChartSubscription where
  RegistryURL : Option String
  Name : Option String
  SemverConstraint : Option String
deriving DecidableEq, Repr

structure StageSubscription where
  Name : Option String
deriving DecidableEq, Repr

structure RepoSubscriptions where
  Git : List (Option GitSubscription)
  Images : List (Option ImageSubscription)
  Charts : List (Option ChartSubscription)
deriving DecidableEq, Repr

structure Subscriptions where
  Repos : Option RepoSubscriptions
  UpstreamStages : List (Option StageSubscription)
deriving DecidableEq, Repr

structure BookkeeperPromotionMechanism where
  dummy : Unit := ()
deriving DecidableEq, Repr

structure KustomizeImageUpdate where
  Image : Option String
  Path : Option String
deriving DecidableEq, Repr

structure KustomizePromotionMechanism where
  Images : List (Option KustomizeImageUpdate)
deriving DecidableEq, Repr

structure HelmImageUpdate where
  Image : Option String
  ValuesFilePath : Option String
  Key : Option String
  Value : Option String
deriving DecidableEq, Repr

structure HelmChartDependencyUpdate where
  RegistryURL : Option String
  Name : Option String
  ChartPath : Option String
deriving DecidableEq, Repr

structure HelmPromotionMechanism where
  Images : List (Option HelmImageUpdate)
  Charts : List (Option HelmChartDependencyUpdate)
deriving DecidableEq, Repr

structure GitRepoUpdate where
  RepoURL : Option String
  ReadBranch : Option String
  WriteBranch : Option String
  Bookkeeper : Option BookkeeperPromotionMechanism
  Kustomize : Option KustomizePromotionMechanism
  Helm : Option HelmPromotionMechanism
deriving DecidableEq, Repr

structure ArgoCDKustomize where
  Images : List String
deriving DecidableEq, Repr

structure ArgoCDHelmImageUpdate where
  Image : Option String
  Key : Option String
  Value : Option String
deriving DecidableEq, Repr

structure ArgoCDHelm where
  Images : List (Option ArgoCDHelmImageUpdate)
deriving DecidableEq, Repr

structure ArgoCDSourceUpdate where
  RepoURL : Option String
  Chart : Option String
  UpdateTargetRevision : Option Bool
  Kustomize : Option ArgoCDKustomize
  Helm : Option ArgoCDHelm
deriving DecidableEq, Repr

structure ArgoCDAppUpdate where
  AppName : Option String
  AppNamespace : Option String
  SourceUpdates : List (Option ArgoCDSourceUpdate)
deriving DecidableEq, Repr

structure PromotionMechanisms where
  GitRepoUpdates : List (Option GitRepoUpdate)
  ArgoCDAppUpdates : List (Option ArgoCDAppUpdate)
deriving DecidableEq, Repr

/-- `metav1.ObjectMeta`, restricted to an identifying pair; the converters only
copy it wholesale. -/
structure ObjectMeta where
  Name : String
  Namespace : String
deriving DecidableEq, Repr, Inhabited

structure PromotionSpec where
  Stage : Option String
  State : Option String
deriving DecidableEq, Repr

structure PromotionStatus where
  Phase : Option String
  Error : Option String
deriving DecidableEq, Repr

structure Promotion where
  Metadata : Option ObjectMeta
  Spec : Option PromotionSpec
  Status : Option PromotionStatus
deriving DecidableEq, Repr

end Proto

namespace Kube

structure GitSubscription where
  RepoURL : String
  Branch : String
deriving DecidableEq, Repr, Inhabited

structure ImageSubscription where
  RepoURL : String
  UpdateStrategy : String
  SemverConstraint : String
  AllowTags : String
  IgnoreTags : List String
  Platform : String
deriving DecidableEq, Repr, Inhabited

structure ChartSubscription where
  RegistryURL : String
  Name : String
  SemverConstraint : String
deriving DecidableEq, Repr, Inhabited

structure StageSubscription where
  Name : String
deriving DecidableEq, Repr, Inhabited

structure RepoSubscriptions where
  Git : List GitSubscription
  Images : List ImageSubscription
  Charts : List ChartSubscription
deriving DecidableEq, Repr, Inhabited

structure Subscriptions where
  Repos : Option RepoSubscriptions
  UpstreamStages : List StageSubscription
deriving DecidableEq, Repr, Inhabited

structure BookkeeperPromotionMechanism where
  dummy : Unit := ()
deriving DecidableEq, Repr, Inhabited

structure KustomizeImageUpdate where
  Image : String
  Path : String
deriving DecidableEq, Repr, Inhabited

structure KustomizePromotionMechanism where
  Images : List KustomizeImageUpdate
deriving DecidableEq, Repr, Inhabited

structure HelmImageUpdate where
  Image : String
  ValuesFilePath : String
  Key : String
  Value : String
deriving DecidableEq, Repr, Inhabited

structure HelmChartDependencyUpdate where
  RegistryURL : String
  Name : String
  ChartPath : String
deriving DecidableEq, Repr, Inhabited

structure HelmPromotionMechanism where
  Images : List HelmImageUpdate
  Charts : List HelmChartDependencyUpdate
deriving DecidableEq, Repr, Inhabited

structure GitRepoUpdate where
  RepoURL : String
  ReadBranch : String
  WriteBranch : String
  Bookkeeper : Option BookkeeperPromotionMechanism
  Kustomize : Option KustomizePromotionMechanism
  Helm : Option HelmPromotionMechanism
deriving DecidableEq, Repr, Inhabited

structure ArgoCDKustomize where
  Images : List String
deriving DecidableEq, Repr, Inhabited

structure ArgoCDHelmImageUpdate where
  Image : String
  Key : String
  Value : String
deriving DecidableEq, Repr, Inhabited

structure ArgoCDHelm where
  Images : List ArgoCDHelmImageUpdate
deriving DecidableEq, Repr, Inhabited

structure ArgoCDSourceUpdate where
  RepoURL : String
  Chart : String
  UpdateTargetRevision : Bool
  Kustomize : Option ArgoCDKustomize
  Helm : Option ArgoCDHelm
deriving DecidableEq, Repr, Inhabited

structure ArgoCDAppUpdate where
  AppName : String
  AppNamespace : String
  SourceUpdates : List ArgoCDSourceUpdate
deriving DecidableEq, Repr, Inhabited

structure PromotionMechanisms where
  GitRepoUpdates : List GitRepoUpdate
  ArgoCDAppUpdates : List ArgoCDAppUpdate
deriving DecidableEq, Repr, Inhabited

structure TypeMeta where
  APIVersion : String
  Kind : String
deriving DecidableEq, Repr, Inhabited

structure PromotionSpec where
  Stage : String
  State : String
deriving DecidableEq, Repr, Inhabited

structure PromotionStatus where
  Phase : String
  Error : String
deriving DecidableEq, Repr, Inhabited

structure Promotion where
  TypeMeta : TypeMeta
  ObjectMeta : Proto.ObjectMeta
  Spec : Option PromotionSpec
  Status : PromotionStatus
deriving DecidableEq, Repr, Inhabited

end Kube

/-- `FromGitSubscriptionProto` (types.go lines 55-63). -/
def FromGitSubscriptionProto :
    Option Proto.GitSubscription → Option Kube.GitSubscription
  | none => none
  | some s =>
    some { RepoURL := s.RepoURL.getD "", Branch := s.Branch.getD "" }

/-- `FromImageSubscriptionProto` (types.go lines 65-77). -/
def FromImageSubscriptionProto :
    Option Proto.ImageSubscription → Option Kube.ImageSubscription
  | none => none
  | some s =>
    some {
      RepoURL := s.RepoURL.getD ""
      UpdateStrategy := s.UpdateStrategy.getD ""
      SemverConstraint := s.SemverConstraint.getD ""
      AllowTags := s.AllowTags.getD ""
      IgnoreTags := s.IgnoreTags
      Platform := s.Platform.getD "" }

/-- `FromChartSubscriptionProto` (types.go lines 79-88). -/
def FromChartSubscriptionProto :
    Option Proto.ChartSubscription → Option Kube.ChartSubscription
  | none => none
  | some s =>
    some {
      RegistryURL := s.RegistryURL.getD ""
      Name := s.Name.getD ""
      SemverConstraint := s.SemverConstraint.getD "" }

/-- `FromStageSubscriptionProto` (types.go lines 262-269). -/
def FromStageSubscriptionProto :
    Option Proto.StageSubscription → Option Kube.StageSubscription
  | none => none
  | some s => some { Name := s.Name.getD "" }

/-- `FromRepoSubscriptionsProto` (types.go lines 32-53).  The three element
loops run in source order and dereference each converted element
(types.go lines 38, 42, 46), so a nil `Git`/`Images`/`Charts` element
panics. -/
def FromRepoSubscriptionsProto :
    Option Proto.RepoSubscriptions → GoRun (Option Kube.RepoSubscriptions)
  | none => GoRun.ok none
  | some s =>
    match mapDeref FromGitSubscriptionProto s.Git with
    | .nilDeref => GoRun.nilDeref
    | .ok gitSubscriptions =>
      match mapDeref FromImageSubscriptionProto s.Images with
      | .nilDeref => GoRun.nilDeref
      | .ok imageSubscriptions =>
        match mapDeref FromChartSubscriptionProto s.Charts with
        | .nilDeref => GoRun.nilDeref
        | .ok chartSubscriptions =>
          GoRun.ok (some {
            Git := gitSubscriptions
            Images := imageSubscriptions
            Charts := chartSubscriptions })

/-- `FromSubscriptionsProto` (types.go lines 18-30).  The `UpstreamStages`
loop dereferences each converted element (line 24), so a nil element panics;
a panic inside the nested `FromRepoSubscriptionsProto` call propagates. -/
def FromSubscriptionsProto :
    Option Proto.Subscriptions → GoRun (Option Kube.Subscriptions)
  | none => GoRun.ok none
  | some s =>
    match mapDeref FromStageSubscriptionProto s.UpstreamStages with
    | .nilDeref => GoRun.nilDeref
    | .ok upstreamStages =>
      match FromRepoSubscriptionsProto s.Repos with
      | .nilDeref => GoRun.nilDeref
      | .ok repos =>
        GoRun.ok (some { Repos := repos, UpstreamStages := upstreamStages })

/-- `FromBookkeeperPromotionMechanismProto` (types.go lines 122-129). -/
def FromBookkeeperPromotionMechanismProto :
    Option Proto.BookkeeperPromotionMechanism →
      Option Kube.BookkeeperPromotionMechanism
  | none => none
  | some _ => some {}

/-- `FromKustomizeImageUpdateProto` (types.go lines 146-154). -/
def FromKustomizeImageUpdateProto :
    Option Proto.KustomizeImageUpdate → Option Kube.KustomizeImageUpdate
  | none => none
  | some u => some { Image := u.Image.getD "", Path := u.Path.getD "" }

/-- `FromKustomizePromotionMechanismProto` (types.go lines 131-144).  The
`Images` loop dereferences each converted element (line 139), so a nil
element panics. -/
def FromKustomizePromotionMechanismProto :
    Option Proto.KustomizePromotionMechanism →
      GoRun (Option Kube.KustomizePromotionMechanism)
  | none => GoRun.ok none
  | some m =>
    match mapDeref FromKustomizeImageUpdateProto m.Images with
    | .nilDeref => GoRun.nilDeref
    | .ok images => GoRun.ok (some { Images := images })

/-- `FromHelmImageUpdateProto` (types.go lines 176-186). -/
def FromHelmImageUpdateProto :
    Option Proto.HelmImageUpdate → Option Kube.HelmImageUpdate
  | none => none
  | some u =>
    some {
      Image := u.Image.getD ""
      ValuesFilePath := u.ValuesFilePath.getD ""
      Key := u.Key.getD ""
      Value := u.Value.getD "" }

/-- `FromHelmChartDependencyUpdateProto` (types.go lines 188-199). -/
def FromHelmChartDependencyUpdateProto :
    Option Proto.HelmChartDependencyUpdate →
      Option Kube.HelmChartDependencyUpdate
  | none => none
  | some u =>
    some {
      RegistryURL := u.RegistryURL.getD ""
      Name := u.Name.getD ""
      ChartPath := u.ChartPath.getD "" }

/-- `FromHelmPromotionMechanismProto` (types.go lines 156-174).  The `Images`
and `Charts` loops dereference each converted element (lines 164, 168), so a
nil element panics. -/
def FromHelmPromotionMechanismProto :
    Option Proto.HelmPromotionMechanism →
      GoRun (Option Kube.HelmPromotionMechanism)
  | none => GoRun.ok none
  | some m =>
    match mapDeref FromHelmImageUpdateProto m.Images with
    | .nilDeref => GoRun.nilDeref
    | .ok images =>
      match mapDeref FromHelmChartDependencyUpdateProto m.Charts with
      | .nilDeref => GoRun.nilDeref
      | .ok charts => GoRun.ok (some { Images := images, Charts := charts })

/-- `FromGitRepoUpdateProto` (types.go lines 108-120).  The nested
`Kustomize`/`Helm` conversions (evaluated in field order) can panic on nil
repeated-field elements; such a panic propagates. -/
def FromGitRepoUpdateProto :
    Option Proto.GitRepoUpdate → GoRun (Option Kube.GitRepoUpdate)
  | none => GoRun.ok none
  | some u =>
    match FromKustomizePromotionMechanismProto u.Kustomize with
    | .nilDeref => GoRun.nilDeref
    | .ok kustomize =>
      match FromHelmPromotionMechanismProto u.Helm with
      | .nilDeref => GoRun.nilDeref
      | .ok helm =>
        GoRun.ok (some {
          RepoURL := u.RepoURL.getD ""
          ReadBranch := u.ReadBranch.getD ""
          WriteBranch := u.WriteBranch.getD ""
          Bookkeeper := FromBookkeeperPromotionMechanismProto u.Bookkeeper
          Kustomize := kustomize
          Helm := helm })

/-- `FromArgoCDKustomizeProto` (types.go lines 229-236). -/
def FromArgoCDKustomizeProto :
    Option Proto.ArgoCDKustomize → Option Kube.ArgoCDKustomize
  | none => none
  | some k => some { Images := k.Images }

/-- `FromArgoCDHelmImageUpdateProto` (types.go lines 251-260). -/
def FromArgoCDHelmImageUpdateProto :
    Option Proto.ArgoCDHelmImageUpdate → Option Kube.ArgoCDHelmImageUpdate
  | none => none
  | some u =>
    some {
      Image := u.Image.getD ""
      Key := u.Key.getD ""
      Value := u.Value.getD "" }

/-- `FromArgoCDHelm` (types.go lines 238-249).  The `Images` loop dereferences
each converted element (line 244), so a nil element panics. -/
def FromArgoCDHelm : Option Proto.ArgoCDHelm → GoRun (Option Kube.ArgoCDHelm)
  | none => GoRun.ok none
  | some h =>
    match mapDeref FromArgoCDHelmImageUpdateProto h.Images with
    | .nilDeref => GoRun.nilDeref
    | .ok images => GoRun.ok (some { Images := images })

/-- `FromArgoCDSourceUpdateProto` (types.go lines 216-227).  A panic inside the
nested `FromArgoCDHelm` call propagates. -/
def FromArgoCDSourceUpdateProto :
    Option Proto.ArgoCDSourceUpdate → GoRun (Option Kube.ArgoCDSourceUpdate)
  | none => GoRun.ok none
  | some u =>
    match FromArgoCDHelm u.Helm with
    | .nilDeref => GoRun.nilDeref
    | .ok helm =>
      GoRun.ok (some {
        RepoURL := u.RepoURL.getD ""
        Chart := u.Chart.getD ""
        UpdateTargetRevision := u.UpdateTargetRevision.getD false
        Kustomize := FromArgoCDKustomizeProto u.Kustomize
        Helm := helm })

/-- `FromArgoCDAppUpdatesProto` (types.go lines 201-214).  The `SourceUpdates`
loop dereferences each converted element (line 207), so a nil element
panics; a panic inside the element conversion propagates. -/
def FromArgoCDAppUpdatesProto :
    Option Proto.ArgoCDAppUpdate → GoRun (Option Kube.ArgoCDAppUpdate)
  | none => GoRun.ok none
  | some u =>
    match mapDerefRun FromArgoCDSourceUpdateProto u.SourceUpdates with
    | .nilDeref => GoRun.nilDeref
    | .ok sourceUpdates =>
      GoRun.ok (some {
        AppName := u.AppName.getD ""
        AppNamespace := u.AppNamespace.getD ""
        SourceUpdates := sourceUpdates })

/-- `FromPromotionMechanismsProto` (types.go lines 90-106).  The
`GitRepoUpdates` and `ArgoCDAppUpdates` loops dereference each converted
element (lines 96, 100), so a nil element panics; a panic inside an element
conversion propagates. -/
def FromPromotionMechanismsProto :
    Option Proto.PromotionMechanisms → GoRun (Option Kube.PromotionMechanisms)
  | none => GoRun.ok none
  | some m =>
    match mapDerefRun FromGitRepoUpdateProto m.GitRepoUpdates with
    | .nilDeref => GoRun.nilDeref
    | .ok gitUpdates =>
      match mapDerefRun FromArgoCDAppUpdatesProto m.ArgoCDAppUpdates with
      | .nilDeref => GoRun.nilDeref
      | .ok argoUpdates =>
        GoRun.ok (some {
          GitRepoUpdates := gitUpdates
          ArgoCDAppUpdates := argoUpdates })

/-- `FromPromotionSpecProto` (types.go lines 294-302). -/
def FromPromotionSpecProto :
    Option Proto.PromotionSpec → Option Kube.PromotionSpec
  | none => none
  | some s => some { Stage := s.Stage.getD "", State := s.State.getD "" }

/-- `FromPromotionStatusProto` (types.go lines 304-312).  The domain phase is a
string-typed cast of the proto phase. -/
def FromPromotionStatusProto :
    Option Proto.PromotionStatus → Option Kube.PromotionStatus
  | none => none
  | some s => some { Phase := s.Phase.getD "", Error := s.Error.getD "" }

/-- `FromPromotionProto` (types.go lines 271-292).  The status and object meta
start as zero values and are overwritten only when the proto field is non-nil;
the dereference at line 277 sits behind that non-nil guard and
`FromPromotionStatusProto` returns non-nil on non-nil input, so its nil-deref
branch is unreachable (mapped to the zero value);
`kubev1alpha1.GroupVersion.String()` is the constant
`"kargo.akuity.io/v1alpha1"`. -/
def FromPromotionProto : Option Proto.Promotion → Option Kube.Promotion
  | none => none
  | some p =>
    let status : Kube.PromotionStatus :=
      match p.Status with
      | none => default
      | some s =>
        match goDeref (FromPromotionStatusProto (some s)) with
        | .ok st => st
        | .nilDeref => default
    let objectMeta : Proto.ObjectMeta :=
      match p.Metadata with
      | none => default
      | some m => m
    some {
      TypeMeta := { APIVersion := "kargo.akuity.io/v1alpha1", Kind := "Promotion" }
      ObjectMeta := objectMeta
      Spec := FromPromotionSpecProto p.Spec
      Status := status }

end Conv

namespace Warehouses

/-- `kargoapi.ChartSubscription` as used by the warehouses reconciler's test
fixture: repository URL, chart name, and semver constraint. -/
structure ChartSubscription where
  RepoURL : String
  Name : String
  SemverConstraint : String := ""
deriving DecidableEq, Repr

/-- `kargoapi.RepoSubscription`, restricted to the chart member the function
reads. -/
structure RepoSubscription where
  Chart : Option ChartSubscription := none
deriving DecidableEq, Repr

/-- `kargoapi.Chart`: the selected chart of a subscription. -/
structure Chart where
  RepoURL : String
  Name : String
  Version : String
deriving DecidableEq, Repr

/-- `helm.Credentials`, treated as opaque payload by the selection logic. -/
structure Credentials where
  Username : String := ""
  Password : String := ""
deriving DecidableEq, Repr

/-- Modelled from the spec: the warehouses reconciler's `selectCharts` is not
among the sources — only `TestSelectCharts` is.  Per section 6 of the spec, the
credentials lookup returns credentials (or none found) or a structured error,
and the version search returns a version string or an error; a credentials
failure is wrapped with the context "error obtaining credentials for chart
…", a search failure with "error searching for latest version of chart …",
and an empty version with no error is detected by an explicit is-empty check
and reported as the distinct "found no suitable version of chart …" failure.
Subscriptions without a chart member are skipped; results accumulate in
subscription order. -/
def selectCharts
    (credsGet : String → Except String (Option Credentials))
    (selectChartVersionFn :
      String → String → String → Option Credentials → Except String String) :
    List RepoSubscription → Except String (List Chart)
  | [] => .ok []
  | s :: rest =>
    match s.Chart with
    | none => selectCharts credsGet selectChartVersionFn rest
    | some sub =>
      match credsGet sub.RepoURL with
      | .error e =>
        .error ("error obtaining credentials for chart " ++ sub.Name
          ++ " from " ++ sub.RepoURL ++ ": " ++ e)
      | .ok creds =>
        match selectChartVersionFn sub.RepoURL sub.Name sub.SemverConstraint creds with
        | .error e =>
          .error ("error searching for latest version of chart " ++ sub.Name
            ++ " from " ++ sub.RepoURL ++ ": " ++ e)
        | .ok vers =>
          if vers = "" then
            .error ("found no suitable version of chart " ++ sub.Name
              ++ " from " ++ sub.RepoURL)
          else
            match selectCharts credsGet selectChartVersionFn rest with
            | .error e => .error e
            | .ok charts =>
              .ok ({ RepoURL := sub.RepoURL, Name := sub.Name, Version := vers } :: charts)

end Warehouses

/-!
Theorems.
-/

namespace Promotions

open EnqueueHighestPriorityPromotionHandler

/-- The candidate loop skips any block of stale entries at the head of the
queue, popping each of them. -/
theorem selectLoop_skips_stale_block (store : NamespacedName → FetchResult)
    (staleEntries rest : List NamespacedName)
    (h : ∀ p ∈ staleEntries, staleEntry store p = true) :
    selectLoop store (staleEntries ++ rest) = selectLoop store rest := by
  induction staleEntries with
  | nil => rfl
  | cons a t ih =>
    have ha : staleEntry store a = true := h a (List.mem_cons_self a t)
    have ht : ∀ p ∈ t, staleEntry store p = true :=
      fun p hp => h p (List.mem_cons_of_mem a hp)
    rw [List.cons_append]
    cases hsa : store a with
    | err => simp [staleEntry, hsa] at ha
    | notFound =>
      simp only [selectLoop, hsa]
      exact ih ht
    | found promo =>
      have hterm : promo.Status.Phase.IsTerminal = true := by
        simpa [staleEntry, hsa] using ha
      simp only [selectLoop, hsa, hterm, if_true]
      exact ih ht

/-- C1: a selection pass on a stage key with no active promotion, whose pending
queue holds a block of stale entries at the head followed by a valid entry,
pops exactly the stale block, enqueues the valid entry (the fetched object
carrying the entry's namespace and name), and leaves the queue holding the
valid entry and everything after it in original relative order; if every entry
is stale, the pass pops them all, enqueues nothing and returns none. -/
theorem enqueueNext_discards_stale_head (store : NamespacedName → FetchResult)
    (pqs : PromoQueues) (k : StageKey)
    (q staleEntries rest : List NamespacedName) (v : NamespacedName)
    (pv : Promotion)
    (hactive : (goLookup pqs.activePromoByStage k).getD "" = "")
    (hq : goLookup pqs.pendingPromoQueuesByStage k = some q) :
    (q = staleEntries ++ v :: rest →
      (∀ p ∈ staleEntries, staleEntry store p = true) →
      store v = .found pv →
      pv.Status.Phase.IsTerminal = false →
      pv.Namespace = v.Namespace →
      pv.Name = v.Name →
      enqueueNext store pqs k =
        ({ pqs with
            pendingPromoQueuesByStage :=
              goInsert pqs.pendingPromoQueuesByStage k (v :: rest) },
          some v))
    ∧ (q = staleEntries →
      (∀ p ∈ staleEntries, staleEntry store p = true) →
      enqueueNext store pqs k =
        ({ pqs with
            pendingPromoQueuesByStage :=
              goInsert pqs.pendingPromoQueuesByStage k [] },
          none)) := by
  constructor
  · intro hsplit hstale hfetch hterm hns hname
    subst hsplit
    unfold enqueueNext
    rw [if_neg (by simp [hactive])]
    unfold examinePending
    rw [hq]
    have : (⟨pv.Namespace, pv.Name⟩ : NamespacedName) = v := by
      rw [hns, hname]
    simp only [selectLoop_skips_stale_block store staleEntries (v :: rest) hstale,
      selectLoop, hfetch, hterm, Bool.false_eq_true, if_false, this]
  · intro hsplit hstale
    rw [hsplit] at hq
    unfold enqueueNext
    rw [if_neg (by simp [hactive])]
    unfold examinePending
    rw [hq]
    have hall : selectLoop store staleEntries = ([], none) := by
      have := selectLoop_skips_stale_block store staleEntries [] hstale
      rwa [List.append_nil] at this
    simp only [hall]

def c1Key : StageKey := ⟨"ns", "stage"⟩

def c1v : NamespacedName := ⟨"ns", "p3"⟩

def c1pv : Promotion :=
  { Namespace := "ns", Name := "p3", Spec := { Stage := "stage" },
    Status := { Phase := .Running } }

def c1Store : NamespacedName → FetchResult := fun p =>
  if p.Name = "p1" then .notFound
  else if p.Name = "p2" then
    .found { Namespace := "ns", Name := "p2", Spec := { Stage := "stage" },
             Status := { Phase := .Succeeded } }
  else .found c1pv

def c1Pqs : PromoQueues :=
  { activePromoByStage := [],
    pendingPromoQueuesByStage :=
      [(c1Key, [⟨"ns", "p1"⟩, ⟨"ns", "p2"⟩, c1v, ⟨"ns", "p9"⟩])] }

/-- Witness for C1 at a concrete queue: two stale entries (one vanished, one
terminal) are popped, the valid third entry is enqueued, and it and the fourth
entry remain queued in order. -/
theorem enqueueNext_discards_stale_head_witness :
    enqueueNext c1Store c1Pqs c1Key =
      ({ c1Pqs with
          pendingPromoQueuesByStage :=
            goInsert c1Pqs.pendingPromoQueuesByStage c1Key
              (c1v :: [⟨"ns", "p9"⟩]) },
        some c1v) :=
  (enqueueNext_discards_stale_head c1Store c1Pqs c1Key
      [⟨"ns", "p1"⟩, ⟨"ns", "p2"⟩, c1v, ⟨"ns", "p9"⟩]
      [⟨"ns", "p1"⟩, ⟨"ns", "p2"⟩] [⟨"ns", "p9"⟩] c1v c1pv
      (by decide) (by decide)).1
    (by decide) (by decide) (by decide) (by decide) (by decide) (by decide)

/-- C4: when fetching the head candidate from the object store fails with an
error, the selection pass aborts — the candidate is not popped, no further
candidate is examined, nothing is enqueued, and the registry state is returned
unchanged. -/
theorem enqueueNext_store_error_aborts (store : NamespacedName → FetchResult)
    (pqs : PromoQueues) (k : StageKey) (first : NamespacedName)
    (rest : List NamespacedName)
    (hactive : (goLookup pqs.activePromoByStage k).getD "" = "")
    (hq : goLookup pqs.pendingPromoQueuesByStage k = some (first :: rest))
    (herr : store first = .err) :
    enqueueNext store pqs k = (pqs, none) := by
  unfold enqueueNext
  rw [if_neg (by simp [hactive])]
  unfold examinePending
  rw [hq]
  simp only [selectLoop, herr]
  rw [goInsert_of_goLookup_eq hq]

def c4Store : NamespacedName → FetchResult := fun _ => .err

def c4Pqs : PromoQueues :=
  { activePromoByStage := [],
    pendingPromoQueuesByStage := [(c1Key, [⟨"ns", "p1"⟩, ⟨"ns", "p2"⟩])] }

/-- Witness for C4 at a concrete queue whose head fetch errors. -/
theorem enqueueNext_store_error_aborts_witness :
    enqueueNext c4Store c4Pqs c1Key = (c4Pqs, none) :=
  enqueueNext_store_error_aborts c4Store c4Pqs c1Key ⟨"ns", "p1"⟩
    [⟨"ns", "p2"⟩] (by decide) (by decide) (by decide)

/-- C5: a selection pass on a stage key whose pending queue is empty, or for
which no pending queue exists, returns none and leaves the whole registry
state — active map and every pending queue — unchanged. -/
theorem enqueueNext_empty_queue (store : NamespacedName → FetchResult)
    (pqs : PromoQueues) (k : StageKey)
    (h : goLookup pqs.pendingPromoQueuesByStage k = none ∨
         goLookup pqs.pendingPromoQueuesByStage k = some []) :
    enqueueNext store pqs k = (pqs, none) := by
  unfold enqueueNext
  split
  · rfl
  · unfold examinePending
    rcases h with h | h
    · rw [h]
    · rw [h]
      simp only [selectLoop]
      rw [goInsert_of_goLookup_eq h]

def c5Pqs : PromoQueues :=
  { activePromoByStage := [],
    pendingPromoQueuesByStage := [(c1Key, [])] }

/-- Witness for C5 at a concrete state holding an empty pending queue. -/
theorem enqueueNext_empty_queue_witness :
    enqueueNext c4Store c5Pqs c1Key = (c5Pqs, none) :=
  enqueueNext_empty_queue c4Store c5Pqs c1Key (by decide)

/-- Helper: a selection pass returns immediately when the recorded active
promotion for the stage key is a non-empty name. -/
theorem enqueueNext_of_active_ne (store : NamespacedName → FetchResult)
    (pqs : PromoQueues) (k : StageKey)
    (h : (goLookup pqs.activePromoByStage k).getD "" ≠ "") :
    enqueueNext store pqs k = (pqs, none) := by
  unfold enqueueNext
  rw [if_pos h]

/-- C6: an absent `activePromoByStage` entry and the empty-string sentinel are
interchangeable — the selection pass proceeds to examine the stage's pending
queue exactly when the entry is absent or the empty string, and for any other
recorded value it returns immediately with nothing enqueued and the registry
unchanged. -/
theorem enqueueNext_active_sentinel (store : NamespacedName → FetchResult)
    (pqs : PromoQueues) (k : StageKey) :
    ((goLookup pqs.activePromoByStage k = none ∨
      goLookup pqs.activePromoByStage k = some "") →
        enqueueNext store pqs k = examinePending store pqs k)
    ∧ (∀ s, goLookup pqs.activePromoByStage k = some s → s ≠ "" →
        enqueueNext store pqs k = (pqs, none)) := by
  constructor
  · intro h
    have hz : (goLookup pqs.activePromoByStage k).getD "" = "" := by
      rcases h with h | h <;> rw [h] <;> rfl
    unfold enqueueNext
    rw [if_neg (by simp [hz])]
  · intro s hs hne
    unfold enqueueNext
    rw [if_pos (by rw [hs]; simpa using hne)]

def c6Pqs : PromoQueues :=
  { activePromoByStage := [(c1Key, "p7")],
    pendingPromoQueuesByStage := [(c1Key, [⟨"ns", "p1"⟩])] }

/-- Witness for C6: with a non-empty active name recorded, the pass returns
immediately, leaving the pending queue untouched. -/
theorem enqueueNext_active_sentinel_witness :
    enqueueNext c4Store c6Pqs c1Key = (c6Pqs, none) :=
  (enqueueNext_active_sentinel c4Store c6Pqs c1Key).2 "p7" (by decide) (by decide)

def c2Store : NamespacedName → FetchResult := fun _ => .notFound

def c2Promo : Promotion :=
  { Namespace := "default", Name := "p1", Spec := { Stage := "s" },
    Status := { Phase := .Succeeded } }

def c2Evt : UpdateEvent :=
  { ObjectOld := some c2Promo, ObjectNew := some c2Promo }

def c2Pqs : PromoQueues :=
  { activePromoByStage := [(⟨"default", "s"⟩, "p1")],
    pendingPromoQueuesByStage := [] }

/-- C2 counterexample: the Update handler never examines the old object's
phase — on a terminal→terminal update (old and new phase both Succeeded) it
acts: it calls `conclude`, clearing the recorded active promotion, rather than
ignoring the event. -/
theorem update_terminal_to_terminal_acts :
    c2Evt.ObjectOld = some c2Promo
    ∧ c2Evt.ObjectNew = some c2Promo
    ∧ c2Promo.Status.Phase.IsTerminal = true
    ∧ Update c2Store c2Pqs c2Evt ≠ (c2Pqs, false, none)
    ∧ (Update c2Store c2Pqs c2Evt).1.activePromoByStage
        = [(⟨"default", "s"⟩, "")] := by decide

/-- C2 amended: the Update handler acts (calls `conclude` and runs the
next-selection loop) exactly when the new object is present with a terminal
phase; the old phase is never examined (the handler relies on its caller to
deliver only became-terminal transitions), so terminal→terminal updates also
act, while an update whose new phase is non-terminal — in particular any
non-terminal→non-terminal update — is ignored, with no registry call and no
enqueue. -/
theorem update_acts_iff_new_phase_terminal (store : NamespacedName → FetchResult)
    (pqs : PromoQueues) (evt : UpdateEvent) :
    ((Update store pqs evt).2.1 = true ↔
      ∃ p, evt.ObjectNew = some p ∧ p.Status.Phase.IsTerminal = true)
    ∧ (∀ p, evt.ObjectNew = some p → p.Status.Phase.IsTerminal = false →
        Update store pqs evt = (pqs, false, none))
    ∧ (evt.ObjectNew = none → Update store pqs evt = (pqs, false, none)) := by
  obtain ⟨o, n⟩ := evt
  cases n with
  | none =>
    refine ⟨by simp [Update], ?_, fun _ => rfl⟩
    intro p hp
    have hp2 : (none : Option Promotion) = some p := hp
    cases hp2
  | some promo =>
    cases hterm : promo.Status.Phase.IsTerminal with
    | true =>
      refine ⟨?_, ?_, ?_⟩
      · constructor
        · intro _
          exact ⟨promo, rfl, hterm⟩
        · intro _
          simp [Update, hterm]
      · intro p hp hfalse
        have hp2 : some promo = some p := hp
        injection hp2 with hp3
        rw [← hp3, hterm] at hfalse
        cases hfalse
      · intro hp
        have hp2 : some promo = (none : Option Promotion) := hp
        cases hp2
    | false =>
      refine ⟨?_, ?_, ?_⟩
      · constructor
        · intro hx
          have hx2 : (Update store pqs ⟨o, some promo⟩).2.1 = false := by
            simp [Update, hterm]
          rw [hx] at hx2
          cases hx2
        · rintro ⟨p, hp, hq⟩
          have hp2 : some promo = some p := hp
          injection hp2 with hp3
          rw [← hp3, hterm] at hq
          cases hq
      · intro p hp hfalse
        simp [Update, hterm]
      · intro hp
        have hp2 : some promo = (none : Option Promotion) := hp
        cases hp2

def c2bPromo : Promotion :=
  { Namespace := "default", Name := "p2", Spec := { Stage := "s" },
    Status := { Phase := .Running } }

def c2bEvt : UpdateEvent :=
  { ObjectOld := some c2bPromo, ObjectNew := some c2bPromo }

/-- Witness for the amended C2: a non-terminal→non-terminal update is ignored
entirely. -/
theorem update_acts_iff_new_phase_terminal_witness :
    Update c2Store c2Pqs c2bEvt = (c2Pqs, false, none) :=
  (update_acts_iff_new_phase_terminal c2Store c2Pqs c2bEvt).2.1 c2bPromo rfl rfl

def c3Key : StageKey := ⟨"ns", "s"⟩

def c3Pqs : PromoQueues :=
  { activePromoByStage := [(c3Key, "p1")],
    pendingPromoQueuesByStage := [(c3Key, [⟨"ns", "p2"⟩])] }

/-- C3 counterexample: in the source, the conclusion (`pqs.conclude`) and the
dispatch-selection (`enqueueNext`, which acquires its own read lock at its
first line) are two separate critical sections, not one; an `admit`
interleaved between the two records a new active promotion for the very stage
key — refuting that no new active promotion can be recorded between the
conclude and the selection. -/
theorem admit_between_conclude_and_selection :
    goLookup (conclude c3Pqs c3Key "p1").activePromoByStage c3Key = some ""
    ∧ goLookup
        (admitPromotion (conclude c3Pqs c3Key "p1") c3Key
          ⟨"ns", "p4"⟩).1.activePromoByStage c3Key = some "p4" := by decide

/-- C3 amended: the conclusion and the dispatch-selection are separate lock
acquisitions, so an admit may record a new active promotion in between; the
selection pass, however, re-checks the active slot under its own lock and
enqueues nothing whenever any promotion (the freshly admitted one, or one
admitted while the stage was still active) holds the slot — so the stage is
never double-activated: after any interleaved admit of a promotion with a
non-empty name, the handler's selection pass returns none and changes
nothing. -/
theorem selection_after_interleaved_admit_enqueues_nothing
    (store : NamespacedName → FetchResult) (pqs : PromoQueues) (k : StageKey)
    (oldName : String) (ref : NamespacedName) (h : ref.Name ≠ "") :
    enqueueNext store (admitPromotion (conclude pqs k oldName) k ref).1 k
      = ((admitPromotion (conclude pqs k oldName) k ref).1, none) := by
  apply enqueueNext_of_active_ne
  unfold admitPromotion
  by_cases ha :
      (goLookup (conclude pqs k oldName).activePromoByStage k).getD "" = ""
  · rw [if_pos ha]
    show (goLookup
        (goInsert (conclude pqs k oldName).activePromoByStage k ref.Name)
        k).getD "" ≠ ""
    rw [goLookup_goInsert_self]
    simpa using h
  · rw [if_neg ha]
    exact ha

/-- Witness for the amended C3 at the counterexample's interleaving: with
`p4` admitted between `conclude` and the selection, the selection pass is a
no-op. -/
theorem selection_after_interleaved_admit_enqueues_nothing_witness :
    enqueueNext c2Store
        (admitPromotion (conclude c3Pqs c3Key "p1") c3Key ⟨"ns", "p4"⟩).1 c3Key
      = ((admitPromotion (conclude c3Pqs c3Key "p1") c3Key ⟨"ns", "p4"⟩).1,
        none) :=
  selection_after_interleaved_admit_enqueues_nothing c2Store c3Pqs c3Key "p1"
    ⟨"ns", "p4"⟩ (by decide)

/-- C7: on an ArgoCD Application update with both objects present, the handler
enqueues exactly one reconcile request per promotion returned by the
running-promotions-by-application index lookup keyed by the new object's
namespace and name, in order; and on every update event the promotion queue
registry — active map and all pending queues — is left unchanged. -/
theorem argo_update_enqueues_one_per_running
    (listRunning : String → Except String (List NamespacedName))
    (pqs : PromoQueues) (evt : UpdatedArgoCDAppHandler.AppUpdateEvent)
    (a b : NamespacedName) (ps : List NamespacedName) :
    (UpdatedArgoCDAppHandler.Update listRunning pqs evt).1 = pqs
    ∧ (evt.ObjectNew = some a → evt.ObjectOld = some b →
        listRunning (a.Namespace ++ ":" ++ a.Name) = .ok ps →
        UpdatedArgoCDAppHandler.Update listRunning pqs evt
          = (pqs, ps.map (fun p => (⟨p.Namespace, p.Name⟩ : NamespacedName)))) := by
  obtain ⟨o, n⟩ := evt
  constructor
  · cases n with
    | none => rfl
    | some newObj =>
      cases o with
      | none => rfl
      | some oldObj =>
        show (match listRunning (newObj.Namespace ++ ":" ++ newObj.Name) with
          | Except.error _ => (pqs, ([] : List NamespacedName))
          | Except.ok promos =>
            (pqs,
              promos.map
                (fun (p : NamespacedName) =>
                  (⟨p.Namespace, p.Name⟩ : NamespacedName)))).1 = pqs
        cases listRunning (newObj.Namespace ++ ":" ++ newObj.Name) <;> rfl
  · intro hn ho hl
    have hn2 : n = some a := hn
    have ho2 : o = some b := ho
    subst hn2
    subst ho2
    show (match listRunning (a.Namespace ++ ":" ++ a.Name) with
      | Except.error _ => (pqs, ([] : List NamespacedName))
      | Except.ok promos =>
        (pqs,
          promos.map
            (fun (p : NamespacedName) =>
              (⟨p.Namespace, p.Name⟩ : NamespacedName))))
      = (pqs, ps.map (fun p => (⟨p.Namespace, p.Name⟩ : NamespacedName)))
    rw [hl]

def c7List : String → Except String (List NamespacedName) := fun key =>
  if key = "ns:app" then .ok [⟨"ns", "p1"⟩, ⟨"ns", "p2"⟩] else .error "boom"

def c7Evt : UpdatedArgoCDAppHandler.AppUpdateEvent :=
  { ObjectOld := some ⟨"ns", "app"⟩, ObjectNew := some ⟨"ns", "app"⟩ }

/-- Witness for C7: two running promotions indexed under the updated
application yield exactly those two reconcile requests, with the registry
untouched. -/
theorem argo_update_enqueues_one_per_running_witness :
    UpdatedArgoCDAppHandler.Update c7List c5Pqs c7Evt
      = (c5Pqs,
        List.map (fun p => (⟨p.Namespace, p.Name⟩ : NamespacedName))
          ([⟨"ns", "p1"⟩, ⟨"ns", "p2"⟩] : List NamespacedName)) :=
  (argo_update_enqueues_one_per_running c7List c5Pqs c7Evt ⟨"ns", "app"⟩
      ⟨"ns", "app"⟩ [⟨"ns", "p1"⟩, ⟨"ns", "p2"⟩]).2 rfl rfl (by rfl)

/-- C10: the Create and Generic callbacks of the terminal-transition handler
and the Create, Delete and Generic callbacks of the ArgoCD application handler
are no-ops — the registry is untouched and nothing is enqueued. -/
theorem event_callbacks_are_noops (pqs : PromoQueues) :
    Create pqs = (pqs, [])
    ∧ Generic pqs = (pqs, [])
    ∧ UpdatedArgoCDAppHandler.Create pqs = (pqs, [])
    ∧ UpdatedArgoCDAppHandler.Delete pqs = (pqs, [])
    ∧ UpdatedArgoCDAppHandler.Generic pqs = (pqs, []) :=
  ⟨rfl, rfl, rfl, rfl, rfl⟩

end Promotions

namespace Warehouses

/-- Helper: string concatenations whose left parts start with distinct
characters are distinct strings. -/
theorem string_append_ne_of_head (a b x y : String) (c d : Char)
    (ha : a.data.head? = some c) (hb : b.data.head? = some d) (hcd : c ≠ d) :
    a ++ x ≠ b ++ y := by
  intro h
  have hd := congrArg String.data h
  rw [String.data_append, String.data_append] at hd
  have hh := congrArg List.head? hd
  rw [List.head?_append_of_ne_nil _
        (by intro hnil; rw [hnil] at ha; exact Option.noConfusion ha),
      List.head?_append_of_ne_nil _
        (by intro hnil; rw [hnil] at hb; exact Option.noConfusion hb)] at hh
  rw [ha, hb] at hh
  injection hh with hh2
  exact hcd hh2

/-- C8: in chart selection, a credentials-lookup failure yields an error
wrapped with "error obtaining credentials for chart"; a version-search failure
yields an error wrapped with "error searching for latest version of chart";
and a search returning the empty version string with no error is caught by the
caller's explicit is-empty check and reported as the distinct "found no
suitable version of chart" failure — a message neither lookup wrap can
produce. -/
theorem selectCharts_error_contexts
    (credsGet : String → Except String (Option Credentials))
    (f : String → String → String → Option Credentials → Except String String)
    (sub : ChartSubscription) (rest : List RepoSubscription) (e : String) :
    (credsGet sub.RepoURL = .error e →
      selectCharts credsGet f ({ Chart := some sub } :: rest)
        = .error ("error obtaining credentials for chart " ++ sub.Name
            ++ " from " ++ sub.RepoURL ++ ": " ++ e))
    ∧ (∀ creds, credsGet sub.RepoURL = .ok creds →
        f sub.RepoURL sub.Name sub.SemverConstraint creds = .error e →
        selectCharts credsGet f ({ Chart := some sub } :: rest)
          = .error ("error searching for latest version of chart " ++ sub.Name
              ++ " from " ++ sub.RepoURL ++ ": " ++ e))
    ∧ (∀ creds, credsGet sub.RepoURL = .ok creds →
        f sub.RepoURL sub.Name sub.SemverConstraint creds = .ok "" →
        selectCharts credsGet f ({ Chart := some sub } :: rest)
          = .error ("found no suitable version of chart " ++ sub.Name
              ++ " from " ++ sub.RepoURL))
    ∧ (∀ n m : String,
        ("found no suitable version of chart " ++ n)
          ≠ ("error searching for latest version of chart " ++ m)
        ∧ ("found no suitable version of chart " ++ n)
          ≠ ("error obtaining credentials for chart " ++ m)) := by
  refine ⟨?_, ?_, ?_, ?_⟩
  · intro h
    simp only [selectCharts, h]
  · intro creds hc hf
    simp only [selectCharts, hc, hf]
  · intro creds hc hf
    simp only [selectCharts, hc, hf, if_true]
  · intro n m
    constructor
    · exact string_append_ne_of_head _ _ _ _ 'f' 'e' (by decide) (by decide)
        (by decide)
    · exact string_append_ne_of_head _ _ _ _ 'f' 'e' (by decide) (by decide)
        (by decide)

def c8CredsErr : String → Except String (Option Credentials) :=
  fun _ => .error "something went wrong"

def c8Version : String → String → String → Option Credentials →
    Except String String :=
  fun _ _ _ _ => .ok "1.0.0"

def c8Sub : ChartSubscription := { RepoURL := "fake-url", Name := "fake-chart" }

/-- Witness for C8 at the test fixture: a failing credentials lookup yields
the wrapped credentials error. -/
theorem selectCharts_error_contexts_witness :
    selectCharts c8CredsErr c8Version [{ Chart := some c8Sub }]
      = .error ("error obtaining credentials for chart " ++ "fake-chart"
          ++ " from " ++ "fake-url" ++ ": " ++ "something went wrong") :=
  (selectCharts_error_contexts c8CredsErr c8Version c8Sub []
      "something went wrong").1 rfl

end Warehouses

namespace Conv

/-- C9 counterexample: `FromSubscriptionsProto` applied to the non-nil
subscriptions value whose `UpstreamStages` slice holds a single nil element
does not return a non-nil result — the loop at types.go line 24 dereferences
`FromStageSubscriptionProto(nil)`, i.e. a nil pointer, and the call panics
instead of returning. -/
theorem fromSubscriptionsProto_panics_on_nil_element :
    FromSubscriptionsProto (some { Repos := none, UpstreamStages := [none] })
      = GoRun.nilDeref := rfl

/-- C9 amended: every nil-guarded proto-to-domain converter returns nil when
applied to a nil input, and never returns nil on a non-nil input.  The
converters that dereference no repeated-message element return a non-nil
result for every non-nil input; the remaining ones (`FromSubscriptionsProto`,
`FromRepoSubscriptionsProto`, `FromPromotionMechanismsProto`,
`FromGitRepoUpdateProto`, `FromKustomizePromotionMechanismProto`,
`FromHelmPromotionMechanismProto`, `FromArgoCDAppUpdatesProto`,
`FromArgoCDSourceUpdateProto`, `FromArgoCDHelm`) either return a non-nil
result or panic with a nil-pointer dereference on a nil repeated-field
element, a panic propagating from nested conversions. -/
theorem fromProto_nil_guard :
    (FromSubscriptionsProto none = GoRun.ok none
      ∧ ∀ x, GoRun.nilResult (FromSubscriptionsProto (some x)) = false)
    ∧ (FromRepoSubscriptionsProto none = GoRun.ok none
      ∧ ∀ x, GoRun.nilResult (FromRepoSubscriptionsProto (some x)) = false)
    ∧ (FromGitSubscriptionProto none = none
      ∧ ∀ x, (FromGitSubscriptionProto (some x)).isSome = true)
    ∧ (FromImageSubscriptionProto none = none
      ∧ ∀ x, (FromImageSubscriptionProto (some x)).isSome = true)
    ∧ (FromChartSubscriptionProto none = none
      ∧ ∀ x, (FromChartSubscriptionProto (some x)).isSome = true)
    ∧ (FromStageSubscriptionProto none = none
      ∧ ∀ x, (FromStageSubscriptionProto (some x)).isSome = true)
    ∧ (FromPromotionMechanismsProto none = GoRun.ok none
      ∧ ∀ x, GoRun.nilResult (FromPromotionMechanismsProto (some x)) = false)
    ∧ (FromGitRepoUpdateProto none = GoRun.ok none
      ∧ ∀ x, GoRun.nilResult (FromGitRepoUpdateProto (some x)) = false)
    ∧ (FromBookkeeperPromotionMechanismProto none = none
      ∧ ∀ x, (FromBookkeeperPromotionMechanismProto (some x)).isSome = true)
    ∧ (FromKustomizePromotionMechanismProto none = GoRun.ok none
      ∧ ∀ x,
          GoRun.nilResult (FromKustomizePromotionMechanismProto (some x))
            = false)
    ∧ (FromKustomizeImageUpdateProto none = none
      ∧ ∀ x, (FromKustomizeImageUpdateProto (some x)).isSome = true)
    ∧ (FromHelmPromotionMechanismProto none = GoRun.ok none
      ∧ ∀ x,
          GoRun.nilResult (FromHelmPromotionMechanismProto (some x)) = false)
    ∧ (FromHelmImageUpdateProto none = none
      ∧ ∀ x, (FromHelmImageUpdateProto (some x)).isSome = true)
    ∧ (FromHelmChartDependencyUpdateProto none = none
      ∧ ∀ x, (FromHelmChartDependencyUpdateProto (some x)).isSome = true)
    ∧ (FromArgoCDAppUpdatesProto none = GoRun.ok none
      ∧ ∀ x, GoRun.nilResult (FromArgoCDAppUpdatesProto (some x)) = false)
    ∧ (FromArgoCDSourceUpdateProto none = GoRun.ok none
      ∧ ∀ x, GoRun.nilResult (FromArgoCDSourceUpdateProto (some x)) = false)
    ∧ (FromArgoCDKustomizeProto none = none
      ∧ ∀ x, (FromArgoCDKustomizeProto (some x)).isSome = true)
    ∧ (FromArgoCDHelm none = GoRun.ok none
      ∧ ∀ x, GoRun.nilResult (FromArgoCDHelm (some x)) = false)
    ∧ (FromArgoCDHelmImageUpdateProto none = none
      ∧ ∀ x, (FromArgoCDHelmImageUpdateProto (some x)).isSome = true)
    ∧ (FromPromotionProto none = none
      ∧ ∀ x, (FromPromotionProto (some x)).isSome = true)
    ∧ (FromPromotionSpecProto none = none
      ∧ ∀ x, (FromPromotionSpecProto (some x)).isSome = true)
    ∧ (FromPromotionStatusProto none = none
      ∧ ∀ x, (FromPromotionStatusProto (some x)).isSome = true) :=
  ⟨⟨rfl, fun x => by
      simp only [FromSubscriptionsProto]
      (repeat' split) <;> rfl⟩,
    ⟨rfl, fun x => by
      simp only [FromRepoSubscriptionsProto]
      (repeat' split) <;> rfl⟩,
    ⟨rfl, fun _ => rfl⟩, ⟨rfl, fun _ => rfl⟩, ⟨rfl, fun _ => rfl⟩,
    ⟨rfl, fun _ => rfl⟩,
    ⟨rfl, fun x => by
      simp only [FromPromotionMechanismsProto]
      (repeat' split) <;> rfl⟩,
    ⟨rfl, fun x => by
      simp only [FromGitRepoUpdateProto]
      (repeat' split) <;> rfl⟩,
    ⟨rfl, fun _ => rfl⟩,
    ⟨rfl, fun x => by
      simp only [FromKustomizePromotionMechanismProto]
      (repeat' split) <;> rfl⟩,
    ⟨rfl, fun _ => rfl⟩,
    ⟨rfl, fun x => by
      simp only [FromHelmPromotionMechanismProto]
      (repeat' split) <;> rfl⟩,
    ⟨rfl, fun _ => rfl⟩, ⟨rfl, fun _ => rfl⟩,
    ⟨rfl, fun x => by
      simp only [FromArgoCDAppUpdatesProto]
      (repeat' split) <;> rfl⟩,
    ⟨rfl, fun x => by
      simp only [FromArgoCDSourceUpdateProto]
      (repeat' split) <;> rfl⟩,
    ⟨rfl, fun _ => rfl⟩,
    ⟨rfl, fun x => by
      simp only [FromArgoCDHelm]
      (repeat' split) <;> rfl⟩,
    ⟨rfl, fun _ => rfl⟩, ⟨rfl, fun _ => rfl⟩, ⟨rfl, fun _ => rfl⟩,
    ⟨rfl, fun _ => rfl⟩⟩

end Conv

end KargoSpec
